import Mathlib

/-!
Shallow embedding of the vocabulary-tutor exercise generator and exporter
(src/exercises/models.py, src/exercises/generator.py, src/exercises/export.py).

Randomness model: Python's `random.shuffle` and `random.sample` are modelled by
an adversarial oracle that supplies one candidate list per call site.  A
candidate is accepted only if it is a valid outcome of the primitive (a
permutation of the input for `shuffle`, a length-`count` sub-permutation for
`sample`); otherwise a deterministic fallback is used.  Every real execution of
the Python code corresponds to some oracle, and theorems quantify over all
oracles, so they cover every outcome of the random source.
-/

namespace VocabTutor

/-- Embeds `Difficulty` from src/exercises/models.py. -/
inductive Difficulty where
  | easy
  | medium
  | hard
deriving DecidableEq, Repr

/-- Embeds `Difficulty.value` (the string value of the enum member). -/
def Difficulty.value : Difficulty → String
  | .easy => "easy"
  | .medium => "medium"
  | .hard => "hard"

/-- Embeds `ExerciseType` from src/exercises/models.py. -/
inductive ExerciseType where
  | fillInBlank
  | matching
  | spelling
  | hangman
deriving DecidableEq, Repr

/-- Embeds `ExerciseType.value`. -/
def ExerciseType.value : ExerciseType → String
  | .fillInBlank => "fill_in_blank"
  | .matching => "matching"
  | .spelling => "spelling"
  | .hangman => "hangman"

/-- Embeds the per-tier policy record held in
`ExerciseGenerator.DIFFICULTY_CONFIG` (src/exercises/generator.py lines 38-60). -/
structure DifficultyConfig where
  maxWordLength : Nat
  showHints : Bool
  matchingPairs : Nat
  hangmanAttempts : Nat
  revealFirstLetter : Bool
deriving DecidableEq, Repr

/-- Embeds `ExerciseGenerator.DIFFICULTY_CONFIG`.  Note the hard tier uses
`max_word_length = 100` in the source (the comment there says "No limit" but
the filter still compares against 100). -/
def DIFFICULTY_CONFIG : Difficulty → DifficultyConfig
  | .easy => ⟨6, true, 4, 8, true⟩
  | .medium => ⟨10, true, 6, 6, false⟩
  | .hard => ⟨100, false, 8, 5, false⟩

/-- Embeds a vocabulary item dictionary as consumed by `ExerciseGenerator`
(`{"id", "sourceForm": {"text"}, "targetForm": {"text"}, "wordType",
"exampleSentences": [{"source", "target"}]}`).  Each example sentence is
represented by its optional `"source"` entry, which is all the generator reads
(`_get_example_sentence`). -/
structure VocabItem where
  id : String
  sourceText : String
  targetText : String
  wordType : String
  exampleSources : List (Option String)
deriving DecidableEq, Repr

/-- Embeds `ExerciseGenerator._get_english`. -/
def getEnglish (item : VocabItem) : String :=
  item.sourceText

/-- Characters of `text.split(";")[0]`: everything before the first `;`. -/
def takeBeforeSemi : List Char → List Char
  | [] => []
  | c :: cs => if c = ';' then [] else c :: takeBeforeSemi cs

/-- Embeds Python `str.strip()`: drop whitespace from both ends. -/
def stripChars (l : List Char) : List Char :=
  ((l.dropWhile Char.isWhitespace).reverse.dropWhile Char.isWhitespace).reverse

/-- Embeds `ExerciseGenerator._get_german`: take the first `;`-separated
translation, stripped, when the text holds several. -/
def getGerman (item : VocabItem) : String :=
  let text := item.targetText
  if text.data.contains ';' then String.mk (stripChars (takeBeforeSemi text.data))
  else text

/-- Embeds `ExerciseGenerator._get_example_sentence`: the `"source"` entry of
the first example sentence, when present. -/
def getExampleSentence (item : VocabItem) : Option String :=
  match item.exampleSources with
  | [] => none
  | s :: _ => s

/-- Python truthiness of an optional string (`if example:`): `None` and the
empty string are falsy. -/
def optTruthy : Option String → Bool
  | none => false
  | some s => s ≠ ""

/-- Embeds `ExerciseGenerator._filter_by_difficulty`: keep items whose source
word has length at most the tier's `max_word_length` and is non-empty. -/
def filterByDifficulty (difficulty : Difficulty) (vocabulary : List VocabItem) :
    List VocabItem :=
  let maxLength := (DIFFICULTY_CONFIG difficulty).maxWordLength
  vocabulary.filter fun item =>
    decide ((getEnglish item).length ≤ maxLength) && decide (getEnglish item ≠ "")

/-- Adversarial model of one `random.shuffle` call: the oracle's candidate is
used when it is a permutation of the input, else the input is left as is.
Either way the result is a permutation of the input, as for the real
primitive. -/
def oracleShuffle [DecidableEq α] (cand l : List α) : List α :=
  if cand.Perm l then cand else l

/-- Embeds `ExerciseGenerator._select_random` (`random.sample` without
replacement, or a full copy when the pool is not larger than `count`).  The
sample itself is modelled adversarially: the candidate is used when it is a
length-`count` sub-permutation of the pool. -/
def selectRandom [DecidableEq α] (cand items : List α) (count : Nat) : List α :=
  if items.length ≤ count then items
  else if cand.length = count ∧ cand.Subperm items then cand
  else items.take count

/-- Random-source oracle for one generator call: a stream of candidate lists
per call site (`itemCand` for shuffles/samples of item lists, `strCand` for
the right-column shuffle of matching exercise `i`, `charCand i k` for the
`k`-th letter shuffle of spelling exercise `i`) plus the fresh ids drawn from
`uuid.uuid4()` (`exId` for exercises, `pairId i j` for pair `j` of matching
exercise `i`). -/
structure Oracle where
  itemCand : Nat → List VocabItem
  strCand : Nat → List String
  charCand : Nat → Nat → List Char
  exId : Nat → String
  pairId : Nat → Nat → String

/-- Embeds `FillInBlankExercise` (src/exercises/models.py).  The `type`
discriminant is carried by the variant of `Exercise` below. -/
structure FillInBlankExercise where
  id : String
  difficulty : Difficulty
  vocabularyIds : List String
  instructions : String
  sentence : String
  blankPosition : Nat
  correctAnswer : String
  hint : Option String
  wordType : Option String
deriving DecidableEq, Repr

/-- Embeds `MatchingPair` (src/exercises/models.py). -/
structure MatchingPair where
  id : String
  left : String
  right : String
  vocabularyId : String
deriving DecidableEq, Repr

/-- Embeds `MatchingExercise` (src/exercises/models.py). -/
structure MatchingExercise where
  id : String
  difficulty : Difficulty
  vocabularyIds : List String
  instructions : String
  pairs : List MatchingPair
  shuffledRight : List String
deriving DecidableEq, Repr

/-- Embeds `SpellingExercise` (src/exercises/models.py); `scrambled_letters`
is Python's list of single-character strings, modelled as `List Char`. -/
structure SpellingExercise where
  id : String
  difficulty : Difficulty
  vocabularyIds : List String
  instructions : String
  germanWord : String
  englishWord : String
  scrambledLetters : List Char
  hint : Option String
deriving DecidableEq, Repr

/-- Embeds `HangmanExercise` (src/exercises/models.py). -/
structure HangmanExercise where
  id : String
  difficulty : Difficulty
  vocabularyIds : List String
  instructions : String
  word : String
  hint : String
  category : String
  maxAttempts : Nat
  revealedLetters : List Nat
deriving DecidableEq, Repr

/-- Tagged union over the four concrete exercise shapes (the Python class
hierarchy rooted at `Exercise`). -/
inductive Exercise where
  | fib (e : FillInBlankExercise)
  | matching (e : MatchingExercise)
  | spelling (e : SpellingExercise)
  | hangman (e : HangmanExercise)
deriving DecidableEq, Repr

/-- The `id` field shared by every exercise variant. -/
def Exercise.exId : Exercise → String
  | .fib e => e.id
  | .matching e => e.id
  | .spelling e => e.id
  | .hangman e => e.id

/-- The `vocabulary_ids` field shared by every exercise variant. -/
def Exercise.vocabIds : Exercise → List String
  | .fib e => e.vocabularyIds
  | .matching e => e.vocabularyIds
  | .spelling e => e.vocabularyIds
  | .hangman e => e.vocabularyIds

/-- Embeds `ExerciseSet` (src/exercises/models.py). -/
structure ExerciseSet where
  id : String
  name : String
  exerciseType : ExerciseType
  difficulty : Difficulty
  exercises : List Exercise
  createdAt : String
deriving DecidableEq, Repr

/-- Case-insensitive prefix test over character lists, modelling
`re.IGNORECASE` matching of an escaped literal pattern (ASCII case folding,
which covers every occurrence in this repository's data paths). -/
def ciPrefixB : List Char → List Char → Bool
  | [], _ => true
  | _ :: _, [] => false
  | p :: ps, c :: cs => (p.toLower == c.toLower) && ciPrefixB ps cs

/-- One fuel-indexed step of `re.compile(re.escape(english),
re.IGNORECASE).sub("___", example)`: scan left to right, replacing each
non-overlapping case-insensitive occurrence of `pat` with `___`.  The fuel
starts at the scanned list's length and never runs out (the pattern is
non-empty for every eligible item, since eligibility requires a non-empty
source word). -/
def ciReplaceGo (pat : List Char) : Nat → List Char → List Char
  | 0, s => s
  | _ + 1, [] => []
  | fuel + 1, c :: cs =>
    if !pat.isEmpty && ciPrefixB pat (c :: cs) then
      '_' :: '_' :: '_' :: ciReplaceGo pat fuel ((c :: cs).drop pat.length)
    else
      c :: ciReplaceGo pat fuel cs

/-- Embeds the case-insensitive substitution used by
`generate_fill_in_blank` (src/exercises/generator.py lines 174-175). -/
def ciReplace (pat s : List Char) : List Char :=
  ciReplaceGo pat s.length s

/-- Substring test over character lists (Python `"___" in w`). -/
def subStrB (pat : List Char) : List Char → Bool
  | [] => pat.isEmpty
  | c :: cs => pat.isPrefixOf (c :: cs) || subStrB pat cs

/-- Embeds Python `str.split()` with no separator: split on whitespace runs,
discarding empty tokens. -/
def wordsAux : List Char → List Char → List (List Char)
  | [], acc => if acc.isEmpty then [] else [acc.reverse]
  | c :: cs, acc =>
    if c.isWhitespace then
      if acc.isEmpty then wordsAux cs [] else acc.reverse :: wordsAux cs []
    else wordsAux cs (c :: acc)

/-- The whitespace-delimited tokens of a character list. -/
def wordsOf (s : List Char) : List (List Char) :=
  wordsAux s []

/-- The blank marker `"___"` as a character list. -/
def blankMarker : List Char := ['_', '_', '_']

/-- Embeds the per-word-type template table of `generate_fill_in_blank`
(src/exercises/generator.py lines 183-189), including the `.get` fallback. -/
def fibTemplate (wordType : String) : String :=
  if wordType = "noun" then "The ___ is important."
  else if wordType = "verb" then "I ___ every day."
  else if wordType = "adjective" then "It is very ___."
  else if wordType = "adverb" then "She did it ___."
  else "The word is ___."

/-- Instruction line of fill-in-the-blank exercises. -/
def fibInstructionText : String := "Fill in the blank with the correct English word."

/-- Builds one fill-in-the-blank exercise from a selected item, embedding the
loop body of `generate_fill_in_blank` (src/exercises/generator.py lines
165-204); `i` is the position of the item in the selected list. -/
def mkFillInBlank (o : Oracle) (cfg : DifficultyConfig) (difficulty : Difficulty)
    (i : Nat) (item : VocabItem) : FillInBlankExercise :=
  let english := getEnglish item
  let german := getGerman item
  let exOpt := getExampleSentence item
  let sentence :=
    if optTruthy exOpt then String.mk (ciReplace english.data (exOpt.getD "").data)
    else fibTemplate item.wordType
  let blankPos :=
    if optTruthy exOpt then
      ((wordsOf sentence.data).findIdx? fun w => subStrB blankMarker w).getD 0
    else
      match (wordsOf sentence.data).findIdx? fun w => w == blankMarker with
      | some idx => idx
      | none => 0
  { id := o.exId i
    difficulty := difficulty
    vocabularyIds := [item.id]
    instructions := fibInstructionText
    sentence := sentence
    blankPosition := blankPos
    correctAnswer := english
    hint := if cfg.showHints then some german else none
    wordType := some item.wordType }

/-- Maps `mkFillInBlank` over the selected items with their positions. -/
def buildFibs (o : Oracle) (cfg : DifficultyConfig) (difficulty : Difficulty) :
    Nat → List VocabItem → List FillInBlankExercise
  | _, [] => []
  | i, item :: rest =>
    mkFillInBlank o cfg difficulty i item :: buildFibs o cfg difficulty (i + 1) rest

/-- The item selection of `generate_fill_in_blank`: partition the eligible
pool by example-sentence availability, sample from the with-example pool
first, top up from the without-example pool when short. -/
def fibSelected (o : Oracle) (difficulty : Difficulty) (count : Nat)
    (vocabulary : List VocabItem) : List VocabItem :=
  let eligible := filterByDifficulty difficulty vocabulary
  let withEx := eligible.filter fun v => optTruthy (getExampleSentence v)
  let withoutEx := eligible.filter fun v => !optTruthy (getExampleSentence v)
  let sel := selectRandom (o.itemCand 0) withEx count
  if sel.length < count then
    sel ++ selectRandom (o.itemCand 1) withoutEx (count - sel.length)
  else sel

/-- Embeds `ExerciseGenerator.generate_fill_in_blank`: filter by difficulty,
select the items, then build the exercises. -/
def generateFillInBlank (o : Oracle) (difficulty : Difficulty) (count : Nat)
    (vocabulary : List VocabItem) : List FillInBlankExercise :=
  buildFibs o (DIFFICULTY_CONFIG difficulty) difficulty 0
    (fibSelected o difficulty count vocabulary)

/-- Instruction line of matching exercises. -/
def matchingInstructionText : String :=
  "Match the English words with their German translations."

/-- Builds the pair list of matching exercise `i` from its selected slice
(src/exercises/generator.py lines 239-247). -/
def mkMatchingPairs (o : Oracle) (i : Nat) : Nat → List VocabItem → List MatchingPair
  | _, [] => []
  | j, item :: rest =>
    { id := o.pairId i j
      left := getEnglish item
      right := getGerman item
      vocabularyId := item.id } :: mkMatchingPairs o i (j + 1) rest

/-- Builds matching exercise `i`: pairs from the slice, and an independently
shuffled copy of the right-hand values (src/exercises/generator.py lines
249-262). -/
def mkMatching (o : Oracle) (difficulty : Difficulty) (i : Nat)
    (selected : List VocabItem) : MatchingExercise :=
  let pairs := mkMatchingPairs o i 0 selected
  { id := o.exId i
    difficulty := difficulty
    vocabularyIds := pairs.map (·.vocabularyId)
    instructions := matchingInstructionText
    pairs := pairs
    shuffledRight := oracleShuffle (o.strCand i) (pairs.map (·.right)) }

/-- The `for _ in range(count)` loop of `generate_matching`: refill and
reshuffle the remaining pool when it is smaller than one slice, then slice off
`pairsPer` items for the next exercise. -/
def matchingLoop (o : Oracle) (difficulty : Difficulty) (pairsPer : Nat)
    (eligible : List VocabItem) : Nat → Nat → List VocabItem → List MatchingExercise
  | 0, _, _ => []
  | n + 1, i, remaining =>
    let rem :=
      if remaining.length < pairsPer then oracleShuffle (o.itemCand (i + 1)) eligible
      else remaining
    mkMatching o difficulty i (rem.take pairsPer) ::
      matchingLoop o difficulty pairsPer eligible n (i + 1) (rem.drop pairsPer)

/-- Embeds `ExerciseGenerator.generate_matching`. -/
def generateMatching (o : Oracle) (difficulty : Difficulty) (count : Nat)
    (vocabulary : List VocabItem) : List MatchingExercise :=
  let cfg := DIFFICULTY_CONFIG difficulty
  let eligible := filterByDifficulty difficulty vocabulary
  matchingLoop o difficulty cfg.matchingPairs eligible count 0
    (oracleShuffle (o.itemCand 0) eligible)

/-- The bounded rescramble loop of `generate_spelling` (src/exercises/
generator.py lines 294-298): while the letters equal the original ordering and
fewer than 10 retry attempts were made, shuffle again.  `k` indexes the next
oracle candidate. -/
def scrambleGo (cand : Nat → List Char) (orig : List Char) :
    Nat → Nat → List Char → List Char
  | 0, _, letters => letters
  | fuel + 1, k, letters =>
    if letters = orig then
      scrambleGo cand orig fuel (k + 1) (oracleShuffle (cand k) letters)
    else letters

/-- Embeds the scramble of one spelling exercise: an initial shuffle of the
lower-cased letters followed by the bounded rescramble loop. -/
def scramble (cand : Nat → List Char) (word : List Char) : List Char :=
  scrambleGo cand word 10 1 (oracleShuffle (cand 0) word)

/-- Instruction line of spelling exercises. -/
def spellingInstructionText : String :=
  "Arrange the letters to spell the English word."

/-- Hint text of a spelling exercise (src/exercises/generator.py lines
301-306).  `english[0]` is defined for eligible items (non-empty source
word); the fallback character is never read on those. -/
def spellingHint (cfg : DifficultyConfig) (english : String) : Option String :=
  if cfg.showHints then
    if cfg.revealFirstLetter then
      some ("Starts with '" ++ String.mk [(english.data.headD ' ').toUpper] ++ "', " ++
        toString english.length ++ " letters")
    else some (toString english.length ++ " letters")
  else none

/-- Builds spelling exercise `i` from a selected item (src/exercises/
generator.py lines 286-319). -/
def mkSpelling (o : Oracle) (cfg : DifficultyConfig) (difficulty : Difficulty)
    (i : Nat) (item : VocabItem) : SpellingExercise :=
  let english := getEnglish item
  { id := o.exId i
    difficulty := difficulty
    vocabularyIds := [item.id]
    instructions := spellingInstructionText
    germanWord := getGerman item
    englishWord := english
    scrambledLetters := scramble (o.charCand i) (english.data.map Char.toLower)
    hint := spellingHint cfg english }

/-- Maps `mkSpelling` over the selected items with their positions. -/
def buildSpellings (o : Oracle) (cfg : DifficultyConfig) (difficulty : Difficulty) :
    Nat → List VocabItem → List SpellingExercise
  | _, [] => []
  | i, item :: rest =>
    mkSpelling o cfg difficulty i item :: buildSpellings o cfg difficulty (i + 1) rest

/-- Embeds `ExerciseGenerator.generate_spelling`. -/
def generateSpelling (o : Oracle) (difficulty : Difficulty) (count : Nat)
    (vocabulary : List VocabItem) : List SpellingExercise :=
  let cfg := DIFFICULTY_CONFIG difficulty
  let eligible := filterByDifficulty difficulty vocabulary
  buildSpellings o cfg difficulty 0 (selectRandom (o.itemCand 0) eligible count)

/-- Instruction line of hangman exercises. -/
def hangmanInstructionText : String := "Guess the English word letter by letter."

/-- Builds hangman exercise `i` from a selected item (src/exercises/
generator.py lines 342-363). -/
def mkHangman (o : Oracle) (cfg : DifficultyConfig) (difficulty : Difficulty)
    (i : Nat) (item : VocabItem) : HangmanExercise :=
  let english := getEnglish item
  { id := o.exId i
    difficulty := difficulty
    vocabularyIds := [item.id]
    instructions := hangmanInstructionText
    word := english
    hint := getGerman item
    category := item.wordType
    maxAttempts := cfg.hangmanAttempts
    revealedLetters :=
      if cfg.revealFirstLetter ∧ 0 < english.length then [0] else [] }

/-- Maps `mkHangman` over the selected items with their positions. -/
def buildHangmans (o : Oracle) (cfg : DifficultyConfig) (difficulty : Difficulty) :
    Nat → List VocabItem → List HangmanExercise
  | _, [] => []
  | i, item :: rest =>
    mkHangman o cfg difficulty i item :: buildHangmans o cfg difficulty (i + 1) rest

/-- Embeds `ExerciseGenerator.generate_hangman`. -/
def generateHangman (o : Oracle) (difficulty : Difficulty) (count : Nat)
    (vocabulary : List VocabItem) : List HangmanExercise :=
  let cfg := DIFFICULTY_CONFIG difficulty
  let eligible := filterByDifficulty difficulty vocabulary
  buildHangmans o cfg difficulty 0 (selectRandom (o.itemCand 0) eligible count)

/-- Embeds the dispatch of `ExerciseGenerator.generate_exercise_set`: the
`generators` table is total over the closed `ExerciseType` enum, so the
unknown-kind `ValueError` branch is unreachable here.  The set id and the
generation-time `created_at` timestamp are passed in (they come from
`uuid.uuid4()` and `datetime.now` in the source). -/
def generateExercises (o : Oracle) (exerciseType : ExerciseType)
    (difficulty : Difficulty) (count : Nat) (vocabulary : List VocabItem) :
    List Exercise :=
  match exerciseType with
  | .fillInBlank => (generateFillInBlank o difficulty count vocabulary).map .fib
  | .matching => (generateMatching o difficulty count vocabulary).map .matching
  | .spelling => (generateSpelling o difficulty count vocabulary).map .spelling
  | .hangman => (generateHangman o difficulty count vocabulary).map .hangman

/-- Embeds `ExerciseGenerator.generate_exercise_set`. -/
def generateExerciseSet (o : Oracle) (exerciseType : ExerciseType)
    (difficulty : Difficulty) (count : Nat) (vocabulary : List VocabItem)
    (setId name createdAt : String) : ExerciseSet :=
  { id := setId
    name := name
    exerciseType := exerciseType
    difficulty := difficulty
    exercises := generateExercises o exerciseType difficulty count vocabulary
    createdAt := createdAt }

/-- JSON values, the documents produced by the exporter.  Objects keep their
fields in insertion order, as Python dicts do. -/
inductive JValue where
  | null
  | jstr (s : String)
  | jnum (n : Int)
  | jarr (xs : List JValue)
  | jobj (fields : List (String × JValue))

/-- Python dict assignment `d[k] = v`: update the value in place when the key
exists, else append the new binding. -/
def dictInsert : List (String × JValue) → String → JValue → List (String × JValue)
  | [], k, v => [(k, v)]
  | (k₀, v₀) :: rest, k, v =>
    if k₀ = k then (k₀, v) :: rest else (k₀, v₀) :: dictInsert rest k v

/-- The keys of a JSON object, in order (empty for non-objects). -/
def jobjKeys : JValue → List String
  | .jobj fs => fs.map (·.1)
  | _ => []

/-- Key lookup in an association list (Python dict `.get`; keys built through
`dictInsert` are distinct, so first match is the binding). -/
def assocGet : List (String × JValue) → String → Option JValue
  | [], _ => none
  | (k₀, v₀) :: rest, k => if k₀ = k then some v₀ else assocGet rest k

/-- Python `d.get(k)` on a JSON document. -/
def jget : JValue → String → Option JValue
  | .jobj fs, k => assocGet fs k
  | _, _ => none

/-- An optional string rendered as JSON (`None` becomes `null`). -/
def joptStr : Option String → JValue
  | none => .null
  | some s => .jstr s

/-- Embeds `FillInBlankExercise.to_dict` (base fields from
`Exercise.to_dict`, then the variant fields, in Python dict update order). -/
def fibToDict (e : FillInBlankExercise) : JValue :=
  .jobj
    [("id", .jstr e.id),
     ("type", .jstr ExerciseType.fillInBlank.value),
     ("difficulty", .jstr e.difficulty.value),
     ("vocabularyIds", .jarr (e.vocabularyIds.map .jstr)),
     ("instructions", .jstr e.instructions),
     ("sentence", .jstr e.sentence),
     ("blankPosition", .jnum e.blankPosition),
     ("correctAnswer", .jstr e.correctAnswer),
     ("hint", joptStr e.hint),
     ("wordType", joptStr e.wordType)]

/-- Serialization of one matching pair inside `MatchingExercise.to_dict`. -/
def pairToDict (p : MatchingPair) : JValue :=
  .jobj [("id", .jstr p.id), ("left", .jstr p.left),
         ("right", .jstr p.right), ("vocabularyId", .jstr p.vocabularyId)]

/-- Embeds `MatchingExercise.to_dict`. -/
def matchingToDict (e : MatchingExercise) : JValue :=
  .jobj
    [("id", .jstr e.id),
     ("type", .jstr ExerciseType.matching.value),
     ("difficulty", .jstr e.difficulty.value),
     ("vocabularyIds", .jarr (e.vocabularyIds.map .jstr)),
     ("instructions", .jstr e.instructions),
     ("pairs", .jarr (e.pairs.map pairToDict)),
     ("shuffledRight", .jarr (e.shuffledRight.map .jstr)),
     ("pairCount", .jnum e.pairs.length)]

/-- Embeds `SpellingExercise.to_dict`. -/
def spellingToDict (e : SpellingExercise) : JValue :=
  .jobj
    [("id", .jstr e.id),
     ("type", .jstr ExerciseType.spelling.value),
     ("difficulty", .jstr e.difficulty.value),
     ("vocabularyIds", .jarr (e.vocabularyIds.map .jstr)),
     ("instructions", .jstr e.instructions),
     ("germanWord", .jstr e.germanWord),
     ("englishWord", .jstr e.englishWord),
     ("scrambledLetters", .jarr (e.scrambledLetters.map fun c => .jstr (String.mk [c]))),
     ("hint", joptStr e.hint),
     ("letterCount", .jnum e.englishWord.length)]

/-- Embeds `HangmanExercise.to_dict`. -/
def hangmanToDict (e : HangmanExercise) : JValue :=
  .jobj
    [("id", .jstr e.id),
     ("type", .jstr ExerciseType.hangman.value),
     ("difficulty", .jstr e.difficulty.value),
     ("vocabularyIds", .jarr (e.vocabularyIds.map .jstr)),
     ("instructions", .jstr e.instructions),
     ("word", .jstr e.word),
     ("wordLength", .jnum e.word.length),
     ("hint", .jstr e.hint),
     ("category", .jstr e.category),
     ("maxAttempts", .jnum e.maxAttempts),
     ("revealedLetters", .jarr (e.revealedLetters.map fun i => .jnum i))]

/-- Dispatches `to_dict` over the exercise variants. -/
def exerciseToDict : Exercise → JValue
  | .fib e => fibToDict e
  | .matching e => matchingToDict e
  | .spelling e => spellingToDict e
  | .hangman e => hangmanToDict e

/-- Embeds `ExerciseSet.to_dict` (src/exercises/models.py lines 214-223). -/
def setToDict (s : ExerciseSet) : JValue :=
  .jobj
    [("id", .jstr s.id),
     ("name", .jstr s.name),
     ("exerciseType", .jstr s.exerciseType.value),
     ("difficulty", .jstr s.difficulty.value),
     ("exerciseCount", .jnum s.exercises.length),
     ("exercises", .jarr (s.exercises.map exerciseToDict)),
     ("createdAt", .jstr s.createdAt)]

/-- Output path of `ExerciseExporter.export_set`, relative to the exporter's
output directory: `{difficulty.value}/{exercise_type.value}.json`. -/
def exportPath (s : ExerciseSet) : List String :=
  [s.difficulty.value, s.exerciseType.value ++ ".json"]

/-- A filesystem abstraction: documents indexed by relative path. -/
def Store : Type := List String → Option JValue

/-- Writing a whole file: the document at `p` is replaced, everything else is
untouched. -/
def storeWrite (store : Store) (p : List String) (doc : JValue) : Store :=
  fun q => if q = p then some doc else store q

/-- Embeds `ExerciseExporter.export_set`: serialize the set and overwrite the
file at the path determined by its difficulty and kind. -/
def exportSetStore (store : Store) (s : ExerciseSet) : Store :=
  storeWrite store (exportPath s) (setToDict s)

/-- The string value inside an optional JSON string (used by `export_answers`
for `p["left"]`, which is always a string in a generated document). -/
def jstrD : Option JValue → String
  | some (.jstr s) => s
  | _ => ""

/-- The `{p["left"]: p["right"] for p in pairs}` comprehension of
`export_answers` over the serialized `pairs` array. -/
def pairsAnswerObj : JValue → List (String × JValue)
  | .jarr ps =>
    ps.foldl (fun acc p => dictInsert acc (jstrD (jget p "left")) ((jget p "right").getD .null)) []
  | _ => []

/-- The kind-specific answer payload extracted by `export_answers`
(src/exercises/export.py lines 140-157) from one exercise's serialized dict;
the dispatch is on the containing set's `exercise_type`. -/
def answerPayload (t : ExerciseType) (e : Exercise) : JValue :=
  let d := exerciseToDict e
  match t with
  | .fillInBlank => .jobj [("answer", (jget d "correctAnswer").getD .null)]
  | .matching => .jobj [("pairs", .jobj (pairsAnswerObj ((jget d "pairs").getD .null)))]
  | .spelling => .jobj [("answer", (jget d "englishWord").getD .null)]
  | .hangman => .jobj [("answer", (jget d "word").getD .null)]

/-- The inner `set_answers` dict of `export_answers` for one set. -/
def answersForSet (s : ExerciseSet) : JValue :=
  .jobj (s.exercises.foldl
    (fun acc e => dictInsert acc e.exId (answerPayload s.exerciseType e)) [])

/-- Embeds `ExerciseExporter.export_answers` as the produced `answers.json`
document: one entry per set key, each holding the per-exercise answers. -/
def exportAnswersDoc (sets : List (String × ExerciseSet)) : JValue :=
  .jobj (sets.foldl (fun acc p => dictInsert acc p.1 (answersForSet p.2)) [])

/-! Concrete instances used by counterexamples and witnesses. -/

/-- A trivial oracle: every candidate list is empty (so every shuffle falls
back to the identity permutation and every sample to a prefix), with
deterministic ids. -/
def oTriv : Oracle :=
  ⟨fun _ => [], fun _ => [], fun _ _ => [],
   fun n => "ex" ++ toString n, fun i j => "p" ++ toString i ++ "_" ++ toString j⟩

/-- The vocabulary item of the spec's worked example (§8). -/
def c3Item : VocabItem :=
  ⟨"v1", "sleeve", "Ärmel", "noun", [some "She has short sleeves."]⟩

/-- A vocabulary item whose source word has 101 characters: non-empty, yet
longer than the hard tier's `max_word_length` of 100. -/
def c1LongItem : VocabItem :=
  ⟨"vLong", String.mk (List.replicate 101 'a'), "lang", "noun", []⟩

/-- A small vocabulary item with a two-letter source word. -/
def vAB : VocabItem := ⟨"v1", "ab", "AB", "noun", []⟩

/-- Two distinct vocabulary items sharing the id `"x"`. -/
def vX1 : VocabItem := ⟨"x", "ab", "A", "noun", []⟩

/-- Second distinct vocabulary item with the same id as `vX1`. -/
def vX2 : VocabItem := ⟨"x", "cd", "B", "noun", []⟩

/-- An oracle whose letter-shuffle candidates always propose `['a', 'b']`:
for the word `"ab"` every shuffle outcome reproduces the original ordering,
a possible run of `random.shuffle`. -/
def oIdentityAB : Oracle :=
  ⟨fun _ => [], fun _ => [], fun _ _ => ['a', 'b'], fun n => "ex" ++ toString n,
   fun _ _ => "p"⟩

/-- The matching exercise generated from `[vAB]` at easy difficulty by the
trivial oracle. -/
def c7Ex : MatchingExercise :=
  ⟨"ex0", .easy, ["v1"], matchingInstructionText,
   [⟨"p0_0", "ab", "AB", "v1"⟩], ["AB"]⟩

/-- The matching exercise generated from `[vX1]` at easy difficulty by the
trivial oracle. -/
def c10Ex : MatchingExercise :=
  ⟨"ex0", .easy, ["x"], matchingInstructionText,
   [⟨"p0_0", "ab", "A", "x"⟩], ["A"]⟩

/-- A concrete hangman exercise: the guessed `word` is the source word
`"sleeve"`, the `hint` the target word `"Ärmel"`. -/
def hangEx1 : HangmanExercise :=
  ⟨"hang_1", .easy, ["v1"], hangmanInstructionText, "sleeve", "Ärmel", "noun", 8, [0]⟩

/-- A concrete one-exercise hangman set. -/
def hangSet1 : ExerciseSet :=
  ⟨"set1", "Hangman - Easy", .hangman, .easy, [.hangman hangEx1],
   "2024-01-01T00:00:00+00:00"⟩

/-- The spelling exercise generated from `vAB` at medium difficulty by the
trivial oracle (whose shuffles all fall back to the identity). -/
def c5Ex : SpellingExercise :=
  ⟨"ex0", .medium, ["v1"], spellingInstructionText, "AB", "ab", ['a', 'b'],
   some "2 letters"⟩

/-- The hangman exercise generated from `[vAB]` at easy difficulty by the
trivial oracle, wrapped as an `Exercise`. -/
def cHangGen : Exercise :=
  .hangman ⟨"ex0", .easy, ["v1"], hangmanInstructionText, "ab", "AB", "noun", 8, [0]⟩

/-- A concrete one-exercise spelling set (for export witnesses). -/
def spellSet1 : ExerciseSet :=
  ⟨"set2", "Spelling - Easy", .spelling, .easy,
   [.spelling ⟨"spell_1", .easy, ["v1"], spellingInstructionText, "AB", "ab",
     ['b', 'a'], some "2 letters"⟩],
   "2024-01-01T00:00:00+00:00"⟩

/-- Another hangman set with the same difficulty and kind as `hangSet1` but a
different id, name, exercises and creation time. -/
def hangSet2 : ExerciseSet :=
  ⟨"set9", "Other name", .hangman, .easy, [], "2025-06-30T12:00:00+00:00"⟩

/-! Helper lemmas about the randomness model. -/

theorem oracleShuffle_perm [DecidableEq α] (cand l : List α) :
    (oracleShuffle cand l).Perm l := by
  unfold oracleShuffle
  split
  · assumption
  · exact List.Perm.refl l

theorem selectRandom_subperm [DecidableEq α] (cand items : List α) (count : Nat) :
    (selectRandom cand items count).Subperm items := by
  unfold selectRandom
  split
  · exact List.Subperm.refl items
  split
  next h => exact h.2
  · exact (List.take_sublist count items).subperm

theorem selectRandom_length [DecidableEq α] (cand items : List α) (count : Nat) :
    (selectRandom cand items count).length = min count items.length := by
  unfold selectRandom
  split
  next h => omega
  split
  next h' =>
    next h => rw [h'.1]; omega
  · exact List.length_take count items

theorem selectRandom_subset [DecidableEq α] (cand items : List α) (count : Nat) :
    ∀ x ∈ selectRandom cand items count, x ∈ items :=
  fun x hx => (selectRandom_subperm cand items count).subset hx

theorem subperm_map (f : α → β) {l₁ l₂ : List α} (h : l₁.Subperm l₂) :
    (l₁.map f).Subperm (l₂.map f) := by
  obtain ⟨l, hp, hs⟩ := h
  exact ⟨l.map f, hp.map f, hs.map f⟩

theorem subperm_nodup {l₁ l₂ : List α} (h : l₁.Subperm l₂) (hn : l₂.Nodup) :
    l₁.Nodup := by
  obtain ⟨l, hp, hs⟩ := h
  exact (hp.nodup_iff).mp (hn.sublist hs)

theorem subperm_append [DecidableEq α] {s₁ s₂ t₁ t₂ u : List α}
    (h₁ : s₁.Subperm t₁) (h₂ : s₂.Subperm t₂) (hu : (t₁ ++ t₂).Perm u) :
    (s₁ ++ s₂).Subperm u := by
  rw [List.subperm_ext_iff]
  intro x _
  have c₁ := h₁.count_le x
  have c₂ := h₂.count_le x
  have := hu.count_eq x
  simp only [List.count_append] at *
  omega

theorem filter_length_partition (p : α → Bool) (l : List α) :
    (l.filter p).length + (l.filter fun x => !p x).length = l.length := by
  have := (List.filter_append_perm p l).length_eq
  simpa using this

/-! Lemmas about the bounded letter scramble. -/

theorem scrambleGo_perm (cand : Nat → List Char) (orig : List Char) :
    ∀ fuel k letters, letters.Perm orig →
      (scrambleGo cand orig fuel k letters).Perm orig := by
  intro fuel
  induction fuel with
  | zero => intro k letters h; exact h
  | succ n ih =>
    intro k letters h
    unfold scrambleGo
    split
    · exact ih (k + 1) _ ((oracleShuffle_perm _ _).trans h)
    · exact h

theorem scramble_perm (cand : Nat → List Char) (word : List Char) :
    (scramble cand word).Perm word :=
  scrambleGo_perm cand word 10 1 _ (oracleShuffle_perm _ _)

theorem scrambleGo_of_ne (cand : Nat → List Char) (orig : List Char)
    (fuel k : Nat) (letters : List Char) (h : letters ≠ orig) :
    scrambleGo cand orig fuel k letters = letters := by
  cases fuel <;> unfold scrambleGo
  · rfl
  · simp [h]

theorem scrambleGo_eq_orig (cand : Nat → List Char) (orig : List Char) :
    ∀ fuel k letters, letters = orig →
      scrambleGo cand orig fuel k letters = orig →
      ∀ j, k ≤ j → j < k + fuel → oracleShuffle (cand j) orig = orig := by
  intro fuel
  induction fuel with
  | zero => intro k letters _ _ j h₁ h₂; omega
  | succ n ih =>
    intro k letters hl hres j h₁ h₂
    subst hl
    unfold scrambleGo at hres
    rw [if_pos rfl] at hres
    by_cases hsh : oracleShuffle (cand k) letters = letters
    · rcases Nat.eq_or_lt_of_le h₁ with heq | hlt
      · rw [heq] at hsh; exact hsh
      · rw [hsh] at hres
        exact ih (k + 1) letters rfl hres j hlt (by omega)
    · rw [scrambleGo_of_ne cand letters n (k + 1) _ hsh] at hres
      exact absurd hres hsh

theorem scramble_eq_orig (cand : Nat → List Char) (word : List Char)
    (h : scramble cand word = word) :
    ∀ j, j ≤ 10 → oracleShuffle (cand j) word = word := by
  intro j hj
  unfold scramble at h
  by_cases h0 : oracleShuffle (cand 0) word = word
  · rcases Nat.eq_zero_or_pos j with hz | hp
    · rw [hz]; exact h0
    · rw [h0] at h
      exact scrambleGo_eq_orig cand word 10 1 word rfl h j hp (by omega)
  · rw [scrambleGo_of_ne cand word 10 1 _ h0] at h
    exact absurd h h0

theorem mem_buildSpellings (o : Oracle) (cfg : DifficultyConfig)
    (difficulty : Difficulty) :
    ∀ (sel : List VocabItem) (i : Nat) (e : SpellingExercise),
      e ∈ buildSpellings o cfg difficulty i sel →
      ∃ j item, item ∈ sel ∧ e = mkSpelling o cfg difficulty j item := by
  intro sel
  induction sel with
  | nil => intro i e he; cases he
  | cons item rest ih =>
    intro i e he
    rcases he with _ | ⟨_, hmem⟩
    · exact ⟨i, item, List.mem_cons_self .., rfl⟩
    · obtain ⟨j, item', hmem', rfl⟩ := ih (i + 1) _ hmem
      exact ⟨j, item', List.mem_cons_of_mem _ hmem', rfl⟩

theorem buildSpellings_getElem (o : Oracle) (cfg : DifficultyConfig)
    (difficulty : Difficulty) :
    ∀ (sel : List VocabItem) (i k : Nat) (e : SpellingExercise),
      (buildSpellings o cfg difficulty i sel)[k]? = some e →
      ∃ item, sel[k]? = some item ∧ e = mkSpelling o cfg difficulty (i + k) item := by
  intro sel
  induction sel with
  | nil => intro i k e he; simp [buildSpellings] at he
  | cons a r ih =>
    intro i k e he
    cases k with
    | zero =>
      simp only [buildSpellings, List.getElem?_cons_zero, Option.some.injEq] at he
      exact ⟨a, by simp, he.symm⟩
    | succ m =>
      simp only [buildSpellings, List.getElem?_cons_succ] at he
      obtain ⟨item, h₁, h₂⟩ := ih (i + 1) m e he
      have harith : i + 1 + m = i + (m + 1) := by omega
      rw [harith] at h₂
      exact ⟨item, by simpa using h₁, h₂⟩

/-- C5: the spelling exercise at position `i` of any generated batch scrambles
the lower-cased source word with the run's own `i`-th candidate stream
`o.charCand i`: its `scrambledLetters` has the same character multiset as the
lower-cased source word (a permutation of it), and its ordering differs from
the original lower-cased ordering unless the run's bounded reshuffle attempts
(the initial shuffle and all 10 retries of that very stream) each reproduced
the original ordering. -/
theorem c5_spelling_scramble (o : Oracle) (difficulty : Difficulty) (count : Nat)
    (vocabulary : List VocabItem) (i : Nat) (e : SpellingExercise)
    (he : (generateSpelling o difficulty count vocabulary)[i]? = some e) :
    e.scrambledLetters =
      scramble (o.charCand i) (e.englishWord.data.map Char.toLower) ∧
    e.scrambledLetters.Perm (e.englishWord.data.map Char.toLower) ∧
    (e.scrambledLetters = e.englishWord.data.map Char.toLower →
      ∀ j, j ≤ 10 →
        oracleShuffle (o.charCand i j) (e.englishWord.data.map Char.toLower) =
          e.englishWord.data.map Char.toLower) := by
  obtain ⟨item, _, heq⟩ :=
    buildSpellings_getElem o (DIFFICULTY_CONFIG difficulty) difficulty _ 0 i e he
  rw [Nat.zero_add] at heq
  subst heq
  exact ⟨rfl, scramble_perm _ _, fun heq => scramble_eq_orig _ _ heq⟩

/-- Witness for C5 at a concrete generated exercise. -/
theorem c5_witness :
    c5Ex.scrambledLetters =
      scramble (oTriv.charCand 0) (c5Ex.englishWord.data.map Char.toLower) ∧
    c5Ex.scrambledLetters.Perm (c5Ex.englishWord.data.map Char.toLower) ∧
    (c5Ex.scrambledLetters = c5Ex.englishWord.data.map Char.toLower →
      ∀ j, j ≤ 10 →
        oracleShuffle (oTriv.charCand 0 j) (c5Ex.englishWord.data.map Char.toLower) =
          c5Ex.englishWord.data.map Char.toLower) :=
  c5_spelling_scramble oTriv .medium 1 [vAB] 0 c5Ex (by decide)

/-- C6 is false as stated: the lower-cased word `"ab"` admits two
distinct-position arrangements, yet there is an outcome of the random source
(every shuffle proposing the identity arrangement, as `random.shuffle` may)
for which the generated `scrambledLetters` equal the original ordering. -/
theorem c6_counterexample :
    (['b', 'a'].Perm ['a', 'b'] ∧ ['b', 'a'] ≠ ['a', 'b']) ∧
    "ab".data.map Char.toLower = ['a', 'b'] ∧
    (generateSpelling oIdentityAB .easy 1 [vAB]).map (·.scrambledLetters) =
      [['a', 'b']] ∧
    (generateSpelling oIdentityAB .easy 1 [vAB]).map (·.englishWord) = ["ab"] := by
  refine ⟨⟨by decide, by decide⟩, by decide, ?_, ?_⟩ <;> decide

/-- C6 amended: the scrambled ordering differs from the original unless every
shuffle outcome of the run (the initial shuffle and all 10 retries)
reproduces the original ordering; the non-identity guarantee is conditional
on those outcomes even for words with at least two distinct-position
arrangements. -/
theorem c6_scramble_conditional (f : Nat → List Char) (word : List Char) :
    scramble f word ≠ word ∨ ∀ j, j ≤ 10 → oracleShuffle (f j) word = word := by
  by_cases h : scramble f word = word
  · exact Or.inr (scramble_eq_orig f word h)
  · exact Or.inl h

/-! Lemmas about matching exercises. -/

theorem mkMatchingPairs_ids (o : Oracle) (i : Nat) :
    ∀ (sel : List VocabItem) (j : Nat),
      (mkMatchingPairs o i j sel).map (·.vocabularyId) = sel.map (·.id) := by
  intro sel
  induction sel with
  | nil => intro j; rfl
  | cons it rest ih => intro j; simp only [mkMatchingPairs, List.map_cons, ih]

theorem mkMatching_pairs_ids (o : Oracle) (difficulty : Difficulty) (i : Nat)
    (sel : List VocabItem) :
    (mkMatching o difficulty i sel).pairs.map (·.vocabularyId) = sel.map (·.id) :=
  mkMatchingPairs_ids o i sel 0

theorem mem_matchingLoop (o : Oracle) (difficulty : Difficulty) (pairsPer : Nat)
    (eligible : List VocabItem) :
    ∀ (n i : Nat) (remaining : List VocabItem) (e : MatchingExercise),
      e ∈ matchingLoop o difficulty pairsPer eligible n i remaining →
      ∃ j sel, e = mkMatching o difficulty j sel := by
  intro n
  induction n with
  | zero => intro i remaining e he; cases he
  | succ m ih =>
    intro i remaining e he
    rw [matchingLoop] at he
    rcases he with _ | ⟨_, htail⟩
    · exact ⟨i, _, rfl⟩
    · exact ih (i + 1) _ e htail

/-- C7: for every generated matching exercise, the multiset of
`shuffledRightColumn` values equals the multiset of that exercise's own
pairs' right-hand values (a permutation, never a resample). -/
theorem c7_shuffled_right_perm (o : Oracle) (difficulty : Difficulty)
    (count : Nat) (vocabulary : List VocabItem) (e : MatchingExercise)
    (he : e ∈ generateMatching o difficulty count vocabulary) :
    e.shuffledRight.Perm (e.pairs.map (·.right)) := by
  obtain ⟨j, sel, rfl⟩ := mem_matchingLoop o difficulty _ _ count 0 _ e he
  exact oracleShuffle_perm _ _

/-- Witness for C7 at a concrete generated exercise. -/
theorem c7_witness : c7Ex.shuffledRight.Perm (c7Ex.pairs.map (·.right)) :=
  c7_shuffled_right_perm oTriv .easy 1 [vAB] c7Ex (by decide)

theorem matchingLoop_pairs_nodup (o : Oracle) (difficulty : Difficulty)
    (pairsPer : Nat) (eligible : List VocabItem)
    (helig : (eligible.map (·.id)).Nodup) :
    ∀ (n i : Nat) (remaining : List VocabItem),
      (remaining.map (·.id)).Nodup →
      ∀ e ∈ matchingLoop o difficulty pairsPer eligible n i remaining,
        (e.pairs.map (·.vocabularyId)).Nodup := by
  intro n
  induction n with
  | zero => intro i remaining _ e he; cases he
  | succ m ih =>
    intro i remaining hrem e he
    rw [matchingLoop] at he
    have hremNodup :
        (((if remaining.length < pairsPer then
            oracleShuffle (o.itemCand (i + 1)) eligible
          else remaining)).map (·.id)).Nodup := by
      split
      · exact ((oracleShuffle_perm _ _).map (fun it : VocabItem => it.id)).nodup_iff.mpr helig
      · exact hrem
    rcases he with _ | ⟨_, htail⟩
    · rw [mkMatching_pairs_ids]
      exact List.Nodup.sublist ((List.take_sublist _ _).map _) hremNodup
    · exact ih (i + 1) _
        (List.Nodup.sublist ((List.drop_sublist _ _).map _) hremNodup) e htail

/-- C10 is false as stated: the input list `[vX1, vX2]` contains no duplicate
items (the two items are distinct), yet both carry the id `"x"`, and the
single generated matching exercise references that id twice in its pairs. -/
theorem c10_counterexample :
    ([vX1, vX2] : List VocabItem).Nodup ∧
    (generateMatching oTriv .easy 1 [vX1, vX2]).map
        (fun e => e.pairs.map (·.vocabularyId)) = [["x", "x"]] ∧
    ¬ (["x", "x"] : List String).Nodup := by
  refine ⟨by decide, by decide, by decide⟩

/-- C10 amended: within any single generated matching exercise the pairs
reference pairwise-distinct vocabulary ids, provided the generator's input
vocabulary list contains no duplicate ids (distinct items sharing an id can
still be paired together, so the hypothesis is on ids, not on items). -/
theorem c10_pairs_distinct (o : Oracle) (difficulty : Difficulty) (count : Nat)
    (vocabulary : List VocabItem)
    (hids : (vocabulary.map (·.id)).Nodup) :
    ∀ e ∈ generateMatching o difficulty count vocabulary,
      (e.pairs.map (·.vocabularyId)).Nodup := by
  have helig : ((filterByDifficulty difficulty vocabulary).map (·.id)).Nodup :=
    List.Nodup.sublist ((List.filter_sublist _).map _) hids
  intro e he
  exact matchingLoop_pairs_nodup o difficulty _ _ helig count 0 _
    (((oracleShuffle_perm _ _).map (fun it : VocabItem => it.id)).nodup_iff.mpr helig) e he

/-- Witness for C10 at a concrete generated exercise. -/
theorem c10_witness : (c10Ex.pairs.map (·.vocabularyId)).Nodup :=
  c10_pairs_distinct oTriv .easy 1 [vX1] (by decide) c10Ex (by decide)

/-! Lemmas about the item selections of the four generators. -/

theorem fibSelected_subperm (o : Oracle) (difficulty : Difficulty) (count : Nat)
    (vocabulary : List VocabItem) :
    (fibSelected o difficulty count vocabulary).Subperm
      (filterByDifficulty difficulty vocabulary) := by
  simp only [fibSelected]
  split
  · exact subperm_append (selectRandom_subperm _ _ _) (selectRandom_subperm _ _ _)
      (List.filter_append_perm _ _)
  · exact (selectRandom_subperm _ _ _).trans (List.filter_sublist _).subperm

theorem fibSelected_subset (o : Oracle) (difficulty : Difficulty) (count : Nat)
    (vocabulary : List VocabItem) :
    ∀ x ∈ fibSelected o difficulty count vocabulary,
      x ∈ filterByDifficulty difficulty vocabulary :=
  fun _ hx => (fibSelected_subperm o difficulty count vocabulary).subset hx

theorem fibSelected_length (o : Oracle) (difficulty : Difficulty) (count : Nat)
    (vocabulary : List VocabItem) :
    (fibSelected o difficulty count vocabulary).length =
      min count (filterByDifficulty difficulty vocabulary).length := by
  simp only [fibSelected]
  have hpart := filter_length_partition
    (fun v => optTruthy (getExampleSentence v)) (filterByDifficulty difficulty vocabulary)
  split
  next h =>
    rw [List.length_append]
    simp only [selectRandom_length] at h ⊢
    omega
  next h =>
    simp only [selectRandom_length] at h ⊢
    omega

theorem mem_buildFibs (o : Oracle) (cfg : DifficultyConfig)
    (difficulty : Difficulty) :
    ∀ (sel : List VocabItem) (i : Nat) (e : FillInBlankExercise),
      e ∈ buildFibs o cfg difficulty i sel →
      ∃ j item, item ∈ sel ∧ e = mkFillInBlank o cfg difficulty j item := by
  intro sel
  induction sel with
  | nil => intro i e he; cases he
  | cons item rest ih =>
    intro i e he
    rcases he with _ | ⟨_, hmem⟩
    · exact ⟨i, item, List.mem_cons_self .., rfl⟩
    · obtain ⟨j, item', hmem', rfl⟩ := ih (i + 1) _ hmem
      exact ⟨j, item', List.mem_cons_of_mem _ hmem', rfl⟩

theorem mem_buildHangmans (o : Oracle) (cfg : DifficultyConfig)
    (difficulty : Difficulty) :
    ∀ (sel : List VocabItem) (i : Nat) (e : HangmanExercise),
      e ∈ buildHangmans o cfg difficulty i sel →
      ∃ j item, item ∈ sel ∧ e = mkHangman o cfg difficulty j item := by
  intro sel
  induction sel with
  | nil => intro i e he; cases he
  | cons item rest ih =>
    intro i e he
    rcases he with _ | ⟨_, hmem⟩
    · exact ⟨i, item, List.mem_cons_self .., rfl⟩
    · obtain ⟨j, item', hmem', rfl⟩ := ih (i + 1) _ hmem
      exact ⟨j, item', List.mem_cons_of_mem _ hmem', rfl⟩

theorem generateFillInBlank_ids (o : Oracle) (difficulty : Difficulty)
    (count : Nat) (vocabulary : List VocabItem) :
    ∀ e ∈ generateFillInBlank o difficulty count vocabulary,
      ∀ y ∈ e.vocabularyIds,
        y ∈ (filterByDifficulty difficulty vocabulary).map (·.id) := by
  intro e he y hy
  obtain ⟨j, item, hmem, rfl⟩ :=
    mem_buildFibs o (DIFFICULTY_CONFIG difficulty) difficulty _ 0 e he
  have hy' : y ∈ [item.id] := hy
  rw [List.mem_singleton] at hy'
  subst hy'
  exact List.mem_map_of_mem _ (fibSelected_subset o difficulty count vocabulary item hmem)

theorem generateSpelling_ids (o : Oracle) (difficulty : Difficulty)
    (count : Nat) (vocabulary : List VocabItem) :
    ∀ e ∈ generateSpelling o difficulty count vocabulary,
      ∀ y ∈ e.vocabularyIds,
        y ∈ (filterByDifficulty difficulty vocabulary).map (·.id) := by
  intro e he y hy
  obtain ⟨j, item, hmem, rfl⟩ :=
    mem_buildSpellings o (DIFFICULTY_CONFIG difficulty) difficulty _ 0 e he
  have hy' : y ∈ [item.id] := hy
  rw [List.mem_singleton] at hy'
  subst hy'
  exact List.mem_map_of_mem _ (selectRandom_subset _ _ _ item hmem)

theorem generateHangman_ids (o : Oracle) (difficulty : Difficulty)
    (count : Nat) (vocabulary : List VocabItem) :
    ∀ e ∈ generateHangman o difficulty count vocabulary,
      ∀ y ∈ e.vocabularyIds,
        y ∈ (filterByDifficulty difficulty vocabulary).map (·.id) := by
  intro e he y hy
  obtain ⟨j, item, hmem, rfl⟩ :=
    mem_buildHangmans o (DIFFICULTY_CONFIG difficulty) difficulty _ 0 e he
  have hy' : y ∈ [item.id] := hy
  rw [List.mem_singleton] at hy'
  subst hy'
  exact List.mem_map_of_mem _ (selectRandom_subset _ _ _ item hmem)

theorem matchingLoop_ids_subset (o : Oracle) (difficulty : Difficulty)
    (pairsPer : Nat) (eligible : List VocabItem) :
    ∀ (n i : Nat) (remaining : List VocabItem),
      (∀ x ∈ remaining, x ∈ eligible) →
      ∀ e ∈ matchingLoop o difficulty pairsPer eligible n i remaining,
        ∀ y ∈ e.vocabularyIds, y ∈ eligible.map (·.id) := by
  intro n
  induction n with
  | zero => intro i remaining _ e he; cases he
  | succ m ih =>
    intro i remaining hrem e he
    rw [matchingLoop] at he
    have hrem' :
        ∀ x ∈ (if remaining.length < pairsPer then
            oracleShuffle (o.itemCand (i + 1)) eligible
          else remaining), x ∈ eligible := by
      split
      · exact fun x hx => (oracleShuffle_perm _ _).subset hx
      · exact hrem
    rcases he with _ | ⟨_, htail⟩
    · intro y hy
      have hy' : y ∈ (mkMatchingPairs o i 0 _).map (·.vocabularyId) := hy
      rw [mkMatchingPairs_ids] at hy'
      obtain ⟨item, hitem, rfl⟩ := List.mem_map.mp hy'
      exact List.mem_map_of_mem _ (hrem' item (List.take_subset _ _ hitem))
    · exact ih (i + 1) _ (fun x hx => hrem' x (List.drop_subset _ _ hx)) e htail

theorem generateMatching_ids (o : Oracle) (difficulty : Difficulty)
    (count : Nat) (vocabulary : List VocabItem) :
    ∀ e ∈ generateMatching o difficulty count vocabulary,
      ∀ y ∈ e.vocabularyIds,
        y ∈ (filterByDifficulty difficulty vocabulary).map (·.id) :=
  matchingLoop_ids_subset o difficulty _ _ count 0 _
    (fun _ hx => (oracleShuffle_perm _ _).subset hx)

theorem exerciseSet_ids_in_filtered (o : Oracle) (t : ExerciseType)
    (difficulty : Difficulty) (count : Nat) (vocabulary : List VocabItem)
    (sid nm ca : String) :
    ∀ e ∈ (generateExerciseSet o t difficulty count vocabulary sid nm ca).exercises,
      ∀ y ∈ e.vocabIds,
        y ∈ (filterByDifficulty difficulty vocabulary).map (·.id) := by
  intro e he y hy
  cases t with
  | fillInBlank =>
    obtain ⟨e₀, he₀, rfl⟩ := List.mem_map.mp he
    exact generateFillInBlank_ids o difficulty count vocabulary e₀ he₀ y hy
  | matching =>
    obtain ⟨e₀, he₀, rfl⟩ := List.mem_map.mp he
    exact generateMatching_ids o difficulty count vocabulary e₀ he₀ y hy
  | spelling =>
    obtain ⟨e₀, he₀, rfl⟩ := List.mem_map.mp he
    exact generateSpelling_ids o difficulty count vocabulary e₀ he₀ y hy
  | hangman =>
    obtain ⟨e₀, he₀, rfl⟩ := List.mem_map.mp he
    exact generateHangman_ids o difficulty count vocabulary e₀ he₀ y hy

/-- C1 is false as stated for the hard tier: a 101-character source word is
non-empty, yet its item is not eligible (the hard tier's filter caps length
at 100, not unbounded). -/
theorem c1_counterexample :
    c1LongItem.sourceText ≠ "" ∧ c1LongItem.sourceText.length = 101 ∧
    filterByDifficulty .hard [c1LongItem] = [] := by
  refine ⟨by decide, by decide, by decide⟩

/-- C1 amended: for every difficulty tier and each of the four generation
operations, a vocabulary item is used in an exercise only if its source word
is non-empty and its length does not exceed the tier's maximum, where the
Easy maximum is 6, the Medium maximum is 10, and the Hard maximum is 100
(not unbounded). -/
theorem c1_eligibility (difficulty : Difficulty) (vocabulary : List VocabItem)
    (item : VocabItem) :
    ((DIFFICULTY_CONFIG .easy).maxWordLength = 6 ∧
     (DIFFICULTY_CONFIG .medium).maxWordLength = 10 ∧
     (DIFFICULTY_CONFIG .hard).maxWordLength = 100) ∧
    (item ∈ filterByDifficulty difficulty vocabulary ↔
      item ∈ vocabulary ∧ getEnglish item ≠ "" ∧
        (getEnglish item).length ≤ (DIFFICULTY_CONFIG difficulty).maxWordLength) ∧
    (∀ (o : Oracle) (t : ExerciseType) (count : Nat) (sid nm ca : String),
      ∀ e ∈ (generateExerciseSet o t difficulty count vocabulary sid nm ca).exercises,
        ∀ y ∈ e.vocabIds,
          y ∈ (filterByDifficulty difficulty vocabulary).map (·.id)) := by
  refine ⟨⟨rfl, rfl, rfl⟩, ?_, ?_⟩
  · simp only [filterByDifficulty, List.mem_filter, Bool.and_eq_true,
      decide_eq_true_eq, and_assoc]
    tauto
  · intro o t count sid nm ca
    exact exerciseSet_ids_in_filtered o t difficulty count vocabulary sid nm ca

/-- Witness for C1 at a concrete generated exercise. -/
theorem c1_witness :
    "v1" ∈ (filterByDifficulty .easy [vAB]).map (·.id) :=
  (c1_eligibility .easy [vAB] vAB).2.2 oTriv .hangman 1 "sid" "nm" "ca"
    cHangGen (by decide) "v1" (by decide)

/-- C8: for every difficulty and every exercise kind, every generated
exercise's source vocabulary ids reference only ids of items present in the
vocabulary list the generator was constructed with. -/
theorem c8_ids_subset (o : Oracle) (t : ExerciseType) (difficulty : Difficulty)
    (count : Nat) (vocabulary : List VocabItem) (sid nm ca : String) :
    ∀ e ∈ (generateExerciseSet o t difficulty count vocabulary sid nm ca).exercises,
      ∀ y ∈ e.vocabIds, y ∈ vocabulary.map (·.id) := by
  intro e he y hy
  have h := exerciseSet_ids_in_filtered o t difficulty count vocabulary sid nm ca e he y hy
  exact ((List.filter_sublist _).map (fun it : VocabItem => it.id)).subset h

/-- Witness for C8 at a concrete generated exercise. -/
theorem c8_witness : "v1" ∈ [vAB].map (·.id) :=
  c8_ids_subset oTriv .hangman .easy 1 [vAB] "sid" "nm" "ca"
    cHangGen (by decide) "v1" (by decide)

/-! Lemmas about exercise counts and duplicate-freeness of a whole set. -/

theorem buildFibs_length (o : Oracle) (cfg : DifficultyConfig)
    (difficulty : Difficulty) :
    ∀ (sel : List VocabItem) (i : Nat),
      (buildFibs o cfg difficulty i sel).length = sel.length := by
  intro sel
  induction sel with
  | nil => intro i; rfl
  | cons a r ih => intro i; simp only [buildFibs, List.length_cons, ih]

theorem buildSpellings_length (o : Oracle) (cfg : DifficultyConfig)
    (difficulty : Difficulty) :
    ∀ (sel : List VocabItem) (i : Nat),
      (buildSpellings o cfg difficulty i sel).length = sel.length := by
  intro sel
  induction sel with
  | nil => intro i; rfl
  | cons a r ih => intro i; simp only [buildSpellings, List.length_cons, ih]

theorem buildHangmans_length (o : Oracle) (cfg : DifficultyConfig)
    (difficulty : Difficulty) :
    ∀ (sel : List VocabItem) (i : Nat),
      (buildHangmans o cfg difficulty i sel).length = sel.length := by
  intro sel
  induction sel with
  | nil => intro i; rfl
  | cons a r ih => intro i; simp only [buildHangmans, List.length_cons, ih]

theorem matchingLoop_length (o : Oracle) (difficulty : Difficulty)
    (pairsPer : Nat) (eligible : List VocabItem) :
    ∀ (n i : Nat) (remaining : List VocabItem),
      (matchingLoop o difficulty pairsPer eligible n i remaining).length = n := by
  intro n
  induction n with
  | zero => intro i remaining; rfl
  | succ m ih =>
    intro i remaining
    rw [matchingLoop]
    simp only [List.length_cons, ih]

theorem buildFibs_ids_flatten (o : Oracle) (cfg : DifficultyConfig)
    (difficulty : Difficulty) :
    ∀ (sel : List VocabItem) (i : Nat),
      ((buildFibs o cfg difficulty i sel).map (·.vocabularyIds)).flatten =
        sel.map (·.id) := by
  intro sel
  induction sel with
  | nil => intro i; rfl
  | cons a r ih =>
    intro i
    simp only [buildFibs, List.map_cons, List.flatten_cons, ih]
    rfl

theorem buildSpellings_ids_flatten (o : Oracle) (cfg : DifficultyConfig)
    (difficulty : Difficulty) :
    ∀ (sel : List VocabItem) (i : Nat),
      ((buildSpellings o cfg difficulty i sel).map (·.vocabularyIds)).flatten =
        sel.map (·.id) := by
  intro sel
  induction sel with
  | nil => intro i; rfl
  | cons a r ih =>
    intro i
    simp only [buildSpellings, List.map_cons, List.flatten_cons, ih]
    rfl

theorem buildHangmans_ids_flatten (o : Oracle) (cfg : DifficultyConfig)
    (difficulty : Difficulty) :
    ∀ (sel : List VocabItem) (i : Nat),
      ((buildHangmans o cfg difficulty i sel).map (·.vocabularyIds)).flatten =
        sel.map (·.id) := by
  intro sel
  induction sel with
  | nil => intro i; rfl
  | cons a r ih =>
    intro i
    simp only [buildHangmans, List.map_cons, List.flatten_cons, ih]
    rfl

theorem filtered_ids_nodup (difficulty : Difficulty) (vocabulary : List VocabItem)
    (h : (vocabulary.map (·.id)).Nodup) :
    ((filterByDifficulty difficulty vocabulary).map (·.id)).Nodup :=
  List.Nodup.sublist ((List.filter_sublist _).map _) h

/-- C2 is false as stated: with the one-item pool `[vAB]` the easy matching
generator recycles the pool and uses the same vocabulary item in both
exercises of the set, and with an empty pool it still produces exactly the
requested number of (pair-less) exercises rather than fewer. -/
theorem c2_counterexample :
    (generateMatching oTriv .easy 2 [vAB]).map (·.vocabularyIds) =
      [["v1"], ["v1"]] ∧
    ¬ (((generateMatching oTriv .easy 2 [vAB]).map (·.vocabularyIds)).flatten).Nodup ∧
    (filterByDifficulty .easy []).length = 0 ∧
    (generateMatching oTriv .easy 1 []).length = 1 := by
  refine ⟨by decide, by decide, by decide, by decide⟩

/-- C2 amended: for fill-in-blank, spelling and hangman the generated set
holds exactly `min(requested, filtered-pool-size)` exercises and never
duplicates a vocabulary item across the whole set (given duplicate-free input
ids); the matching generator instead always produces exactly the requested
number of exercises, recycling the eligible pool when it is exhausted
mid-batch, which can repeat vocabulary items across the set (and an empty
pool yields the requested number of pair-less exercises rather than fewer);
no case raises an error. -/
theorem c2_set_counts :
    (∀ (o : Oracle) (difficulty : Difficulty) (count : Nat)
        (vocabulary : List VocabItem),
      (generateFillInBlank o difficulty count vocabulary).length =
        min count (filterByDifficulty difficulty vocabulary).length) ∧
    (∀ (o : Oracle) (difficulty : Difficulty) (count : Nat)
        (vocabulary : List VocabItem),
      (generateSpelling o difficulty count vocabulary).length =
        min count (filterByDifficulty difficulty vocabulary).length) ∧
    (∀ (o : Oracle) (difficulty : Difficulty) (count : Nat)
        (vocabulary : List VocabItem),
      (generateHangman o difficulty count vocabulary).length =
        min count (filterByDifficulty difficulty vocabulary).length) ∧
    (∀ (o : Oracle) (difficulty : Difficulty) (count : Nat)
        (vocabulary : List VocabItem),
      (generateMatching o difficulty count vocabulary).length = count) ∧
    (∀ (o : Oracle) (difficulty : Difficulty) (count : Nat)
        (vocabulary : List VocabItem),
      (vocabulary.map (·.id)).Nodup →
        (((generateFillInBlank o difficulty count vocabulary).map
            (·.vocabularyIds)).flatten.Nodup ∧
         ((generateSpelling o difficulty count vocabulary).map
            (·.vocabularyIds)).flatten.Nodup ∧
         ((generateHangman o difficulty count vocabulary).map
            (·.vocabularyIds)).flatten.Nodup)) := by
  refine ⟨?_, ?_, ?_, ?_, ?_⟩
  · intro o difficulty count vocabulary
    rw [generateFillInBlank, buildFibs_length, fibSelected_length]
  · intro o difficulty count vocabulary
    rw [generateSpelling, buildSpellings_length, selectRandom_length]
  · intro o difficulty count vocabulary
    rw [generateHangman, buildHangmans_length, selectRandom_length]
  · intro o difficulty count vocabulary
    rw [generateMatching, matchingLoop_length]
  · intro o difficulty count vocabulary hids
    have hflt := filtered_ids_nodup difficulty vocabulary hids
    refine ⟨?_, ?_, ?_⟩
    · rw [generateFillInBlank, buildFibs_ids_flatten]
      exact subperm_nodup
        (subperm_map (fun it : VocabItem => it.id)
          (fibSelected_subperm o difficulty count vocabulary)) hflt
    · rw [generateSpelling, buildSpellings_ids_flatten]
      exact subperm_nodup
        (subperm_map (fun it : VocabItem => it.id)
          (selectRandom_subperm _ _ _)) hflt
    · rw [generateHangman, buildHangmans_ids_flatten]
      exact subperm_nodup
        (subperm_map (fun it : VocabItem => it.id)
          (selectRandom_subperm _ _ _)) hflt

/-- Witness for C2 at a concrete generated set. -/
theorem c2_witness :
    ((generateHangman oTriv .easy 1 [vAB]).map (·.vocabularyIds)).flatten.Nodup :=
  (c2_set_counts.2.2.2.2 oTriv .easy 1 [vAB] (by decide)).2.2

/-- C3 is false as stated: the case-insensitive substring replacement of
`"sleeve"` inside `"She has short sleeves."` leaves the trailing plural `s`,
so the generated sentence is `"She has short ___s."`, not
`"She has short ___."`. -/
theorem c3_counterexample :
    (generateFillInBlank oTriv .easy 1 [c3Item]).map (·.sentence) =
      ["She has short ___s."] ∧
    "She has short ___s." ≠ "She has short ___." := by
  refine ⟨by decide, by decide⟩

/-- C3 amended: for the spec's single-item vocabulary,
`generateFillInBlank(Easy, 1)` returns, for every outcome of the random
source, exactly one exercise with `correctAnswer = "sleeve"`,
`hint = "Ärmel"`, and `sentence = "She has short ___s."` (every
case-insensitive substring occurrence of the source word is replaced by the
blank marker, leaving the plural `s` of `"sleeves"` in place). -/
theorem c3_example_scenario (o : Oracle) :
    generateFillInBlank o .easy 1 [c3Item] =
      [{ id := o.exId 0, difficulty := .easy, vocabularyIds := ["v1"],
         instructions := fibInstructionText, sentence := "She has short ___s.",
         blankPosition := 3, correctAnswer := "sleeve", hint := some "Ärmel",
         wordType := some "noun" }] := rfl

/-- C9: the export path is determined solely by the set's difficulty and
kind, re-exporting the same set overwrites the file with identical content
(the model is a pure function of the set, with no export-time input), and the
serialized set document's fields are exactly the seven listed ones, whose
only timestamp, `createdAt`, is the set's generation-time value. -/
theorem c9_export_set_idempotent :
    (∀ s₁ s₂ : ExerciseSet, s₁.difficulty = s₂.difficulty →
      s₁.exerciseType = s₂.exerciseType → exportPath s₁ = exportPath s₂) ∧
    (∀ (store : Store) (s : ExerciseSet),
      exportSetStore (exportSetStore store s) s = exportSetStore store s) ∧
    (∀ s : ExerciseSet,
      jobjKeys (setToDict s) =
        ["id", "name", "exerciseType", "difficulty", "exerciseCount",
         "exercises", "createdAt"] ∧
      jget (setToDict s) "createdAt" = some (.jstr s.createdAt)) := by
  refine ⟨?_, ?_, ?_⟩
  · intro s₁ s₂ h₁ h₂
    rw [exportPath, exportPath, h₁, h₂]
  · intro store s
    funext q
    simp only [exportSetStore, storeWrite]
    split <;> rfl
  · intro s
    exact ⟨rfl, rfl⟩

/-- Witness for C9: two sets differing in everything but difficulty and kind
share the export path. -/
theorem c9_witness : exportPath hangSet1 = exportPath hangSet2 :=
  c9_export_set_idempotent.1 hangSet1 hangSet2 rfl rfl

/-! Lemmas about Python dict construction in `export_answers`. -/

theorem dictInsert_append (k : String) (v : JValue) :
    ∀ acc : List (String × JValue), k ∉ acc.map (·.1) →
      dictInsert acc k v = acc ++ [(k, v)] := by
  intro acc
  induction acc with
  | nil => intro _; rfl
  | cons p rest ih =>
    obtain ⟨k₀, v₀⟩ := p
    intro h
    simp only [List.map_cons, List.mem_cons] at h
    push_neg at h
    rw [dictInsert, if_neg fun hh => h.1 hh.symm, ih h.2, List.cons_append]

theorem foldl_dictInsert {β : Type} (key : β → String) (val : β → JValue) :
    ∀ (l : List β) (acc : List (String × JValue)),
      (l.map key).Nodup → (∀ b ∈ l, key b ∉ acc.map (·.1)) →
      l.foldl (fun a b => dictInsert a (key b) (val b)) acc =
        acc ++ l.map (fun b => (key b, val b)) := by
  intro l
  induction l with
  | nil => intro acc _ _; simp
  | cons b bs ih =>
    intro acc hnd hdis
    have hhead := (List.nodup_cons.mp hnd).1
    simp only [List.foldl_cons]
    rw [dictInsert_append (key b) (val b) acc (hdis b (List.mem_cons_self ..))]
    rw [ih (acc ++ [(key b, val b)]) (List.nodup_cons.mp hnd).2 ?_]
    · simp
    · intro b' hb'
      simp only [List.map_append, List.mem_append, List.map_cons, List.map_nil,
        List.mem_singleton, not_or]
      refine ⟨hdis b' (List.mem_cons_of_mem _ hb'), fun hk => ?_⟩
      exact hhead (hk ▸ List.mem_map_of_mem key hb')

theorem assocGet_of_map {β : Type} (key : β → String) (val : β → JValue) :
    ∀ (l : List β) (b : β), b ∈ l → (l.map key).Nodup →
      assocGet (l.map fun b' => (key b', val b')) (key b) = some (val b) := by
  intro l
  induction l with
  | nil => intro b hb _; cases hb
  | cons a as ih =>
    intro b hb hnd
    have hhead := (List.nodup_cons.mp hnd).1
    simp only [List.map_cons, assocGet]
    by_cases hk : key a = key b
    · rcases hb with _ | ⟨_, hb'⟩
      · rw [if_pos rfl]
      · exact absurd (hk ▸ List.mem_map_of_mem key hb') hhead
    · rw [if_neg hk]
      rcases hb with _ | ⟨_, hb'⟩
      · exact absurd rfl hk
      · exact ih b hb' (List.nodup_cons.mp hnd).2

theorem answersForSet_eq (s : ExerciseSet)
    (h : (s.exercises.map Exercise.exId).Nodup) :
    answersForSet s =
      .jobj (s.exercises.map fun e => (e.exId, answerPayload s.exerciseType e)) := by
  unfold answersForSet
  have heq := foldl_dictInsert Exercise.exId
    (fun e => answerPayload s.exerciseType e) s.exercises [] h (by simp)
  simpa using congrArg JValue.jobj heq

theorem exportAnswersDoc_eq (sets : List (String × ExerciseSet))
    (h : (sets.map (·.1)).Nodup) :
    exportAnswersDoc sets =
      .jobj (sets.map fun p => (p.1, answersForSet p.2)) := by
  unfold exportAnswersDoc
  have heq := foldl_dictInsert (fun p : String × ExerciseSet => p.1)
    (fun p => answersForSet p.2) sets [] h (by simp)
  simpa using congrArg JValue.jobj heq

theorem pairsAnswerObj_eq (pairs : List MatchingPair)
    (h : (pairs.map (·.left)).Nodup) :
    pairsAnswerObj (.jarr (pairs.map pairToDict)) =
      pairs.map fun p => (p.left, JValue.jstr p.right) := by
  show (pairs.map pairToDict).foldl
      (fun acc p => dictInsert acc (jstrD (jget p "left"))
        ((jget p "right").getD JValue.null)) [] = _
  rw [List.foldl_map]
  have heq := foldl_dictInsert (fun p : MatchingPair => p.left)
    (fun p => JValue.jstr p.right) pairs [] h (by simp)
  simpa using heq

/-- C4 is false as stated: the answers document nests payloads under each set
key (the exercise ids are not top-level keys), and the hangman payload is the
exercise's guessed word — the source word (`"sleeve"`), not the target word
(`"Ärmel"`). -/
theorem c4_counterexample :
    jobjKeys (exportAnswersDoc [("easy_hangman", hangSet1)]) = ["easy_hangman"] ∧
    "hang_1" ∉ jobjKeys (exportAnswersDoc [("easy_hangman", hangSet1)]) ∧
    ((jget (exportAnswersDoc [("easy_hangman", hangSet1)]) "easy_hangman").bind
        fun d => jget d "hang_1") =
      some (.jobj [("answer", .jstr "sleeve")]) ∧
    hangEx1.word = "sleeve" ∧ hangEx1.hint = "Ärmel" ∧ "sleeve" ≠ "Ärmel" := by
  refine ⟨rfl, by decide, rfl, rfl, rfl, by decide⟩

/-- C4 amended: `exportAnswers` writes a single document mapping each set key
to a mapping from exercise id to a kind-specific payload: FillInBlank →
`{answer: correct word}`, Matching → `{pairs: true left→right mapping}`,
Spelling → `{answer: un-scrambled source word}`, Hangman → `{answer: the
exercise's word, which generation sets to the item's source word}`
(assuming the distinct keys and ids that `uuid` ids provide). -/
theorem c4_export_answers :
    (∀ sets : List (String × ExerciseSet), (sets.map (·.1)).Nodup →
      jobjKeys (exportAnswersDoc sets) = sets.map (·.1)) ∧
    (∀ (sets : List (String × ExerciseSet)) (k : String) (s : ExerciseSet),
      (sets.map (·.1)).Nodup → (k, s) ∈ sets →
      jget (exportAnswersDoc sets) k = some (answersForSet s)) ∧
    (∀ s : ExerciseSet, (s.exercises.map Exercise.exId).Nodup →
      jobjKeys (answersForSet s) = s.exercises.map Exercise.exId) ∧
    (∀ (s : ExerciseSet) (e : Exercise),
      (s.exercises.map Exercise.exId).Nodup → e ∈ s.exercises →
      jget (answersForSet s) e.exId = some (answerPayload s.exerciseType e)) ∧
    (∀ e : FillInBlankExercise, answerPayload .fillInBlank (.fib e) =
      .jobj [("answer", .jstr e.correctAnswer)]) ∧
    (∀ e : MatchingExercise, (e.pairs.map (·.left)).Nodup →
      answerPayload .matching (.matching e) =
        .jobj [("pairs", .jobj (e.pairs.map fun p => (p.left, .jstr p.right)))]) ∧
    (∀ e : SpellingExercise, answerPayload .spelling (.spelling e) =
      .jobj [("answer", .jstr e.englishWord)]) ∧
    (∀ e : HangmanExercise, answerPayload .hangman (.hangman e) =
      .jobj [("answer", .jstr e.word)]) ∧
    (∀ (o : Oracle) (difficulty : Difficulty) (count : Nat)
        (vocabulary : List VocabItem),
      ∀ e ∈ generateHangman o difficulty count vocabulary,
        ∃ item, item ∈ vocabulary ∧ e.word = getEnglish item ∧
          e.hint = getGerman item) := by
  refine ⟨?_, ?_, ?_, ?_, fun e => rfl, ?_, fun e => rfl, fun e => rfl, ?_⟩
  · intro sets h
    rw [exportAnswersDoc_eq sets h, jobjKeys, List.map_map]
    rfl
  · intro sets k s h hmem
    rw [exportAnswersDoc_eq sets h, jget]
    exact assocGet_of_map (fun p : String × ExerciseSet => p.1)
      (fun p => answersForSet p.2) sets (k, s) hmem h
  · intro s h
    rw [answersForSet_eq s h, jobjKeys, List.map_map]
    rfl
  · intro s e h hmem
    rw [answersForSet_eq s h, jget]
    exact assocGet_of_map Exercise.exId
      (fun e => answerPayload s.exerciseType e) s.exercises e hmem h
  · intro e h
    show JValue.jobj [("pairs", .jobj (pairsAnswerObj (.jarr (e.pairs.map pairToDict))))] = _
    rw [pairsAnswerObj_eq e.pairs h]
  · intro o difficulty count vocabulary e he
    obtain ⟨j, item, hmem, rfl⟩ :=
      mem_buildHangmans o (DIFFICULTY_CONFIG difficulty) difficulty _ 0 e he
    refine ⟨item, ?_, rfl, rfl⟩
    exact List.mem_of_mem_filter (selectRandom_subset _ _ _ item hmem)

/-- Witness for C4: the answers entry of a concrete hangman set. -/
theorem c4_witness :
    jget (answersForSet hangSet1) (Exercise.exId (.hangman hangEx1)) =
      some (answerPayload hangSet1.exerciseType (.hangman hangEx1)) :=
  c4_export_answers.2.2.2.1 hangSet1 (.hangman hangEx1) (by decide) (by decide)

end VocabTutor


